import Mathlib

/-!
Verification of the `ProductSettingsDialog` component and its companion
slash-command files: a shallow embedding of the dialog's data model, its
keypress handler, its commit/load/save logic, and proofs of the behavioural
properties stated in the design document.

Modelling conventions:
* The edit buffer is a `List Char`; a Lean `Char` is one Unicode scalar
  value, so list positions are exactly the codepoint positions used by
  `cpLen` / `cpSlice` in the source.
* `editCursorPos` is a `Nat`: in the source it is a JS number that every
  handler keeps non-negative (`Math.max(0, ...)`, guards `pos > 0`), and
  all arithmetic performed on it coincides with `Nat` arithmetic under
  those guards.
* React `setX` updates inside one keypress callback are modelled as one
  pure state transition; calls to the `onSelect` result callback and to
  `saveSettings` are collected as an explicit list of effects.
-/

/-- Platform enum, from the `platform: 'Windows' | 'Linux'` field of the
`ProductSettings` interface. -/
inductive Platform
  | Windows
  | Linux
deriving DecidableEq, Repr

/-- The `ProductSettings` interface: `name`, `styleReferenceUrl`,
`platform`, `modules`. String fields that take part in codepoint-addressed
editing are kept as codepoint lists. -/
structure ProductSettings where
  name : List Char
  styleReferenceUrl : List Char
  platform : Platform
  modules : List String
deriving DecidableEq, Repr

/-- `DEFAULT_SETTINGS` from the source. -/
def DEFAULT_SETTINGS : ProductSettings :=
  { name := "new-project".data
    styleReferenceUrl := "".data
    platform := Platform.Windows
    modules := [] }

/-- `type FocusMode = 'settings' | 'actions'`. -/
inductive FocusMode
  | settings
  | actions
deriving DecidableEq, Repr

/-- The non-null part of `type EditingField = 'name' | null`; the state
field is an `Option EditField`. -/
inductive EditField
  | name
deriving DecidableEq, Repr

/-- The component state relevant to the verified behaviour: the committed
settings, the focus bookkeeping, and the editing session
(`editingField`, `editBuffer`, `editCursorPos`). -/
structure DialogState where
  settings : ProductSettings
  focusMode : FocusMode
  actionIndex : Nat
  editingField : Option EditField
  editBuffer : List Char
  editCursorPos : Nat
deriving DecidableEq, Repr

/-- An input event as delivered to the `useKeypress` callback: a key
`name`, the raw `sequence` (as codepoints), and the `paste` flag. -/
structure Key where
  name : String
  sequence : List Char
  paste : Bool
deriving DecidableEq, Repr

/-- Observable effects of one keypress: a call to the `onSelect` result
callback with its argument, or entry into `saveSettings`. -/
inductive Effect
  | select (result : Option ProductSettings)
  | save
deriving DecidableEq, Repr

/-- `cpLen` from `utils/textUtils.js` (not among the reviewed files): the
length of a string in Unicode codepoints.  On a codepoint list this is the
list length. -/
def cpLen (s : List Char) : Nat :=
  s.length

/-- `cpSlice(s, start, stop)` from `utils/textUtils.js`: the codepoint
slice `[start, stop)` with JS `Array.slice` clamping (indices here are
always non-negative). -/
def cpSlice (s : List Char) (start stop : Nat) : List Char :=
  (s.take stop).drop start

/-- `cpSlice(s, start)` with the optional end index omitted: the codepoint
suffix from `start`. -/
def cpSliceFrom (s : List Char) (start : Nat) : List Char :=
  s.drop start

/-- Modelled from the spec: `stripUnsafeCharacters` from
`utils/textUtils.js` is not among the reviewed files; the spec states that
control/unsafe characters in input are "silently stripped before
insertion".  A character is unsafe when it is a C0 control character or
DELETE. -/
def isUnsafeCharacter (c : Char) : Bool :=
  c.toNat < 0x20 || c.toNat == 0x7F

/-- Modelled from the spec: strip every control/unsafe character from an
input sequence, keeping the rest in order. -/
def stripUnsafeCharacters (s : List Char) : List Char :=
  s.filter (fun c => !(isUnsafeCharacter c))

/-- The number of UTF-16 code units a codepoint occupies: 1 inside the
Basic Multilingual Plane, 2 above it.  JS `String.prototype.length`
(used by the handler's `ch.length === 1` test) counts these units. -/
def utf16CharLen (c : Char) : Nat :=
  if c.toNat < 0x10000 then 1 else 2

/-- JS `String.prototype.length` of a codepoint list: total UTF-16 code
units. -/
def utf16Len (s : List Char) : Nat :=
  (s.map utf16CharLen).sum

/-- The whitespace class of JS `String.prototype.trim`: tab through
carriage return, space, NBSP, and the Unicode space separators, line
separators and BOM. -/
def isJsWhitespace (c : Char) : Bool :=
  c.toNat == 0x9 || c.toNat == 0xA || c.toNat == 0xB || c.toNat == 0xC ||
  c.toNat == 0xD || c.toNat == 0x20 || c.toNat == 0xA0 || c.toNat == 0x1680 ||
  (0x2000 ≤ c.toNat && c.toNat ≤ 0x200A) || c.toNat == 0x2028 ||
  c.toNat == 0x2029 || c.toNat == 0x202F || c.toNat == 0x205F ||
  c.toNat == 0x3000 || c.toNat == 0xFEFF

/-- JS `String.prototype.trim` on a codepoint list: drop leading and
trailing whitespace. -/
def jsTrim (s : List Char) : List Char :=
  ((s.dropWhile isJsWhitespace).reverse.dropWhile isJsWhitespace).reverse

/-- `startEditing(field, initial)`: open an edit session on `field` with
the buffer preloaded and the cursor at the end. -/
def startEditing (s : DialogState) (field : Option EditField)
    (initial : List Char) : DialogState :=
  { s with
      editingField := field
      editBuffer := initial
      editCursorPos := cpLen initial }

/-- `commitEdit()`: no-op without a session; otherwise trim the buffer,
store a non-empty trimmed value into the owning field (`name`), discard an
empty one, and close the session either way. -/
def commitEdit (s : DialogState) : DialogState :=
  if s.editingField = none then s
  else if jsTrim s.editBuffer = [] then
    { s with editingField := none, editBuffer := [], editCursorPos := 0 }
  else if s.editingField = some EditField.name then
    { s with
        settings := { s.settings with name := jsTrim s.editBuffer },
        editingField := none, editBuffer := [], editCursorPos := 0 }
  else
    { s with editingField := none, editBuffer := [], editCursorPos := 0 }

/-- The `useKeypress` callback: editing-mode dispatch (paste, named
control keys, single-code-unit fallthrough insert) followed by the
navigating-mode dispatch (tab, escape, action row).  Returns the updated
state and the effects emitted during the call. -/
def handleKeypress (s : DialogState) (k : Key) : DialogState × List Effect :=
  if s.editingField ≠ none then
    if k.paste = true ∧ k.sequence ≠ [] then
      if stripUnsafeCharacters k.sequence ≠ [] then
        ({ s with
            editBuffer :=
              cpSlice s.editBuffer 0 s.editCursorPos ++
                stripUnsafeCharacters k.sequence ++
                cpSliceFrom s.editBuffer s.editCursorPos,
            editCursorPos :=
              s.editCursorPos + cpLen (stripUnsafeCharacters k.sequence) }, [])
      else (s, [])
    else if k.name = "backspace" ∧ 0 < s.editCursorPos then
      ({ s with
          editBuffer :=
            cpSlice s.editBuffer 0 (s.editCursorPos - 1) ++
              cpSliceFrom s.editBuffer s.editCursorPos,
          editCursorPos := s.editCursorPos - 1 }, [])
    else if k.name = "delete" ∧ s.editCursorPos < cpLen s.editBuffer then
      ({ s with
          editBuffer :=
            cpSlice s.editBuffer 0 s.editCursorPos ++
              cpSliceFrom s.editBuffer (s.editCursorPos + 1) }, [])
    else if k.name = "escape" then
      ({ s with editingField := none, editBuffer := [], editCursorPos := 0 }, [])
    else if k.name = "return" then
      (commitEdit s, [])
    else if k.name = "left" then
      ({ s with editCursorPos := max 0 (s.editCursorPos - 1) }, [])
    else if k.name = "right" then
      ({ s with editCursorPos := min (cpLen s.editBuffer) (s.editCursorPos + 1) }, [])
    else if k.name = "home" then
      ({ s with editCursorPos := 0 }, [])
    else if k.name = "end" then
      ({ s with editCursorPos := cpLen s.editBuffer }, [])
    else if utf16Len (stripUnsafeCharacters k.sequence) = 1 then
      ({ s with
          editBuffer :=
            cpSlice s.editBuffer 0 s.editCursorPos ++
              stripUnsafeCharacters k.sequence ++
              cpSliceFrom s.editBuffer s.editCursorPos,
          editCursorPos := s.editCursorPos + 1 }, [])
    else (s, [])
  else if k.name = "tab" then
    ({ s with
        focusMode :=
          if s.focusMode = FocusMode.settings then FocusMode.actions
          else FocusMode.settings }, [])
  else if k.name = "escape" then
    (s, [Effect.select none])
  else if s.focusMode = FocusMode.actions then
    if k.name = "left" ∨ k.name = "h" then ({ s with actionIndex := 0 }, [])
    else if k.name = "right" ∨ k.name = "l" then ({ s with actionIndex := 1 }, [])
    else if k.name = "return" then
      if s.actionIndex = 0 then (s, [Effect.save])
      else (s, [Effect.select none])
    else (s, [])
  else (s, [])

/-- The toggle expression used for `module-sqlite` and `module-i18n` rows:
remove every occurrence when present, append once when absent. -/
def toggleModule (mods : List String) (m : String) : List String :=
  if m ∈ mods then mods.filter (fun x => x != m) else mods ++ [m]

/-- `handleSettingSelect(value)`: no-op while editing; opens the name edit
session, sets the platform radio value, or toggles a module. -/
def handleSettingSelect (s : DialogState) (value : String) : DialogState :=
  if s.editingField ≠ none then s
  else if value = "name" then
    startEditing s (some EditField.name) s.settings.name
  else if value = "platform-windows" then
    { s with settings := { s.settings with platform := Platform.Windows } }
  else if value = "platform-linux" then
    { s with settings := { s.settings with platform := Platform.Linux } }
  else if value = "module-sqlite" then
    { s with settings := { s.settings with modules := toggleModule s.settings.modules "sqlite" } }
  else if value = "module-i18n" then
    { s with settings := { s.settings with modules := toggleModule s.settings.modules "i18n" } }
  else s

/-- The parse result of the persisted JSON file: each `ProductSettings`
key may be present or absent.  (`JSON.parse` output feeding the spread
merge `\x7b ...DEFAULT_SETTINGS, ...loaded \x7d`.) -/
structure LoadedSettings where
  name : Option (List Char)
  styleReferenceUrl : Option (List Char)
  platform : Option Platform
  modules : Option (List String)
deriving DecidableEq, Repr

/-- The spread merge `\x7b ...DEFAULT_SETTINGS, ...loaded \x7d`: every key
present in the loaded object overrides the default, absent keys keep their
defaults, and `modules` is replaced wholesale. -/
def mergeLoaded (loaded : LoadedSettings) : ProductSettings :=
  { name := loaded.name.getD DEFAULT_SETTINGS.name
    styleReferenceUrl :=
      loaded.styleReferenceUrl.getD DEFAULT_SETTINGS.styleReferenceUrl
    platform := loaded.platform.getD DEFAULT_SETTINGS.platform
    modules := loaded.modules.getD DEFAULT_SETTINGS.modules }

/-- The load effect: `parsed = none` models a missing file, an unreadable
file, or a `JSON.parse` failure — all caught, leaving the state at
`DEFAULT_SETTINGS`; a parsed object is spread-merged over the defaults. -/
def loadSettings (parsed : Option LoadedSettings) : ProductSettings :=
  match parsed with
  | none => DEFAULT_SETTINGS
  | some loaded => mergeLoaded loaded

/-- A lower-case hexadecimal digit, for `\u00XX` escapes. -/
def hexDigit (n : Nat) : Char :=
  if n < 10 then Char.ofNat (48 + n) else Char.ofNat (87 + n)

/-- `JSON.stringify` escaping of one character inside a string literal. -/
def jsonEscapeChar (c : Char) : List Char :=
  if c = '"' then ['\\', '"']
  else if c = '\\' then ['\\', '\\']
  else if c.toNat = 0x8 then ['\\', 'b']
  else if c = '\t' then ['\\', 't']
  else if c = '\n' then ['\\', 'n']
  else if c.toNat = 0xC then ['\\', 'f']
  else if c = '\r' then ['\\', 'r']
  else if c.toNat < 0x20 then
    ['\\', 'u', '0', '0', hexDigit (c.toNat / 16), hexDigit (c.toNat % 16)]
  else [c]

/-- A JSON string literal for a codepoint sequence. -/
def jsonStringLit (s : List Char) : List Char :=
  '"' :: (s.map jsonEscapeChar).flatten ++ ['"']

/-- The JSON name of a `Platform` value. -/
def platformJson (p : Platform) : List Char :=
  match p with
  | Platform.Windows => "Windows".data
  | Platform.Linux => "Linux".data

/-- The `modules` array as printed by `JSON.stringify(..., null, 2)` at
nesting depth 1: `[]` when empty, otherwise one four-space-indented item
per line with the closing bracket at two spaces. -/
def modulesJson (mods : List String) : List Char :=
  match mods with
  | [] => "[]".data
  | _ =>
    "[\n".data ++
      (List.intersperse ",\n".data
        (mods.map (fun m => "    ".data ++ jsonStringLit m.data))).flatten ++
      "\n  ]".data

/-- `JSON.stringify(settings, null, 2)`: the deterministic two-space
pretty-printed serialization of the full `ProductSettings` shape, keys in
interface order. -/
def serializeSettings (st : ProductSettings) : String :=
  String.mk
    ("\x7b\n  \"name\": ".data ++ jsonStringLit st.name ++
      ",\n  \"styleReferenceUrl\": ".data ++ jsonStringLit st.styleReferenceUrl ++
      ",\n  \"platform\": ".data ++ jsonStringLit (platformJson st.platform) ++
      ",\n  \"modules\": ".data ++ modulesJson st.modules ++
      "\n\x7d".data)

/-- A small filesystem model for `saveSettings`: the set of existing
directory paths and the file contents by path. -/
structure Fs where
  dirs : List String
  files : List (String × String)
deriving DecidableEq, Repr

/-- Fault injection for the two filesystem primitives `saveSettings`
uses: whether `mkdirSync` would throw if called, and whether
`writeFileSync` would throw if called. -/
structure FsFault where
  mkdirFails : Bool
  writeFails : Bool
deriving DecidableEq, Repr

/-- Overwrite-or-create a file entry. -/
def setFile (p c : String) (files : List (String × String)) :
    List (String × String) :=
  (p, c) :: files.filter (fun e => e.1 != p)

/-- Look up a file's contents. -/
def lookupFile (p : String) (files : List (String × String)) : Option String :=
  (files.find? (fun e => e.1 == p)).map (fun e => e.2)

/-- `saveSettings()`: ensure `.aaagent` exists (creating it — recursively
in the source — when absent), write the serialized settings, and call
`onSelect(settings)`; any thrown filesystem error is caught and answered
with `onSelect(undefined)`.  The returned list holds the `onSelect`
arguments in order. -/
def saveSettings (fs : Fs) (fault : FsFault) (workingDirectory : String)
    (st : ProductSettings) : Fs × List (Option ProductSettings) :=
  let aaagentDir := workingDirectory ++ "/.aaagent"
  let settingsPath := aaagentDir ++ "/product-settings.json"
  if (¬ aaagentDir ∈ fs.dirs) ∧ fault.mkdirFails = true then
    (fs, [none])
  else
    let fs1 :=
      if aaagentDir ∈ fs.dirs then fs
      else { fs with dirs := aaagentDir :: fs.dirs }
    if fault.writeFails = true then
      (fs1, [none])
    else
      ({ fs1 with files := setFile settingsPath (serializeSettings st) fs1.files },
        [some st])

/-- Whether the dispatch is in editing mode: the source's
`if (editingField)` test. -/
def sessionOpen (s : DialogState) : Prop :=
  s.editingField.isSome = true

/-- The edit-session invariant of the design document: the cursor lies
within `[0, cpLen buffer]` (the lower bound is by the `Nat` carrier, which
the guarded source arithmetic never leaves). -/
def EditInv (s : DialogState) : Prop :=
  s.editCursorPos ≤ cpLen s.editBuffer

/-- A paste event carrying `seq` as its payload. -/
def pasteKey (seq : List Char) : Key :=
  { name := "paste", sequence := seq, paste := true }

/-- A terminal backspace keypress: key name `backspace`, sequence DEL. -/
def backspaceKey : Key :=
  { name := "backspace", sequence := ['\x7f'], paste := false }

/-- A terminal forward-delete keypress: key name `delete`, sequence
`ESC [ 3 ~`. -/
def deleteKey : Key :=
  { name := "delete", sequence := ['\x1b', '[', '3', '~'], paste := false }

/-- A terminal escape keypress. -/
def escapeKey : Key :=
  { name := "escape", sequence := ['\x1b'], paste := false }

/-- A terminal return keypress. -/
def returnKey : Key :=
  { name := "return", sequence := ['\r'], paste := false }

/-- A terminal left-arrow keypress. -/
def leftKey : Key :=
  { name := "left", sequence := ['\x1b', '[', 'D'], paste := false }

/-- A terminal right-arrow keypress. -/
def rightKey : Key :=
  { name := "right", sequence := ['\x1b', '[', 'C'], paste := false }

/-- Iterate the state transition of `n` successive backspace keypresses. -/
def stepBackspaces (n : Nat) (s : DialogState) : DialogState :=
  match n with
  | 0 => s
  | n + 1 => stepBackspaces n (handleKeypress s backspaceKey).1

/-- A concrete editing-mode state used to instantiate theorems with
hypotheses: name field open, buffer `ab`, cursor between the two
characters. -/
def sampleEditing : DialogState :=
  { settings := DEFAULT_SETTINGS
    focusMode := FocusMode.settings
    actionIndex := 0
    editingField := some EditField.name
    editBuffer := "ab".data
    editCursorPos := 1 }

/-- A concrete navigating-mode state. -/
def sampleNavigating : DialogState :=
  { settings := DEFAULT_SETTINGS
    focusMode := FocusMode.settings
    actionIndex := 0
    editingField := none
    editBuffer := []
    editCursorPos := 0 }

/-- C4: a missing/unreadable/unparseable settings file yields exactly the
defaults with the failure swallowed; a parsed object is shallow-merged
key by key over the defaults with `modules` replaced wholesale; the file
`\x7b"platform":"Linux"\x7d` yields `platform=Linux` with every other
field at its default. -/
theorem C4_theorem :
    loadSettings none = DEFAULT_SETTINGS ∧
    (∀ p : LoadedSettings,
      (loadSettings (some p)).name = p.name.getD DEFAULT_SETTINGS.name ∧
      (loadSettings (some p)).styleReferenceUrl =
        p.styleReferenceUrl.getD DEFAULT_SETTINGS.styleReferenceUrl ∧
      (loadSettings (some p)).platform =
        p.platform.getD DEFAULT_SETTINGS.platform ∧
      (loadSettings (some p)).modules =
        p.modules.getD DEFAULT_SETTINGS.modules) ∧
    loadSettings
        (some { name := none, styleReferenceUrl := none,
                platform := some Platform.Linux, modules := none }) =
      { DEFAULT_SETTINGS with platform := Platform.Linux } :=
  ⟨rfl, fun _ => ⟨rfl, rfl, rfl, rfl⟩, rfl⟩

/-- C5: escape during an edit session closes only the session (buffer and
cursor reset, committed settings and everything else untouched, no
`onSelect` call), while escape in navigating mode leaves the state alone
and calls `onSelect` exactly once with the no-settings value. -/
theorem C5_theorem (s t : DialogState) (hs : s.editingField.isSome = true)
    (ht : t.editingField = none) :
    handleKeypress s escapeKey =
      ({ s with editingField := none, editBuffer := [], editCursorPos := 0 }, []) ∧
    handleKeypress t escapeKey = (t, [Effect.select none]) := by
  have hs' : s.editingField ≠ none := by
    cases h : s.editingField <;> simp [h] at hs ⊢
  constructor
  · simp [handleKeypress, escapeKey, hs']
  · simp [handleKeypress, escapeKey, ht]

/-- Witness for C5 at concrete editing and navigating states. -/
theorem C5_witness :
    handleKeypress sampleEditing escapeKey =
      ({ sampleEditing with
          editingField := none, editBuffer := [], editCursorPos := 0 }, []) ∧
    handleKeypress sampleNavigating escapeKey =
      (sampleNavigating, [Effect.select none]) :=
  C5_theorem sampleEditing sampleNavigating rfl rfl

/-- C6: a return keypress during a name edit runs `commitEdit` and emits
nothing; committing a buffer whose trim is empty leaves the settings
object untouched and only closes the session, while a non-empty trim is
stored into the `name` field as the session closes. -/
theorem C6_theorem (s : DialogState) (h : s.editingField = some EditField.name) :
    handleKeypress s returnKey = (commitEdit s, []) ∧
    (jsTrim s.editBuffer = [] →
      commitEdit s =
        { s with editingField := none, editBuffer := [], editCursorPos := 0 }) ∧
    (jsTrim s.editBuffer ≠ [] →
      commitEdit s =
        { s with
            settings := { s.settings with name := jsTrim s.editBuffer },
            editingField := none, editBuffer := [], editCursorPos := 0 }) := by
  have h' : s.editingField ≠ none := by simp [h]
  refine ⟨by simp [handleKeypress, returnKey, h'], ?_, ?_⟩
  · intro ht
    simp [commitEdit, h, ht]
  · intro ht
    simp [commitEdit, h, ht]

/-- Witness for C6: committing buffer `  hi  ` stores `hi` into the name
field, and a return keypress routes through `commitEdit`. -/
theorem C6_witness :
    handleKeypress { sampleEditing with editBuffer := "  hi  ".data } returnKey =
      (commitEdit { sampleEditing with editBuffer := "  hi  ".data }, []) ∧
    commitEdit { sampleEditing with editBuffer := "  hi  ".data } =
      { sampleEditing with
          settings := { sampleEditing.settings with name := "hi".data },
          editingField := none, editBuffer := [], editCursorPos := 0 } := by
  have h := C6_theorem { sampleEditing with editBuffer := "  hi  ".data } rfl
  exact ⟨h.1, by rw [h.2.2 (by decide)]; decide⟩

/-- C9: while an edit session is open, a left-arrow keypress clamps the
cursor to `max (p-1) 0` and a right-arrow keypress clamps it to
`min (p+1) len`, neither touching the buffer. -/
theorem C9_theorem (s : DialogState) (hE : s.editingField.isSome = true) :
    (handleKeypress s leftKey).1 =
      { s with editCursorPos := max (s.editCursorPos - 1) 0 } ∧
    (handleKeypress s rightKey).1 =
      { s with editCursorPos := min (s.editCursorPos + 1) (cpLen s.editBuffer) } ∧
    (handleKeypress s leftKey).1.editBuffer = s.editBuffer ∧
    (handleKeypress s rightKey).1.editBuffer = s.editBuffer := by
  have hE' : s.editingField ≠ none := by
    cases h : s.editingField <;> simp [h] at hE ⊢
  refine ⟨?_, ?_, ?_, ?_⟩ <;>
    simp [handleKeypress, leftKey, rightKey, hE', Nat.max_comm, Nat.min_comm]

/-- Witness for C9 at a concrete editing state with the cursor at 1 in a
two-character buffer. -/
theorem C9_witness :
    (handleKeypress sampleEditing leftKey).1 =
      { sampleEditing with editCursorPos := 0 } ∧
    (handleKeypress sampleEditing rightKey).1 =
      { sampleEditing with editCursorPos := 2 } := by
  have h := C9_theorem sampleEditing rfl
  exact ⟨h.1, h.2.1⟩

/-- C10: with the cursor at position 0, a terminal backspace event is a
complete no-op (its DEL sequence is stripped by the fallthrough, so
nothing is inserted either); with the cursor at the end of the buffer, a
terminal forward-delete event is likewise a complete no-op.  State,
settings and session are all unchanged and nothing is emitted. -/
theorem C10_theorem (s t : DialogState)
    (hs : s.editingField.isSome = true) (hs0 : s.editCursorPos = 0)
    (ht : t.editingField.isSome = true)
    (htE : t.editCursorPos = cpLen t.editBuffer) :
    handleKeypress s backspaceKey = (s, []) ∧
    handleKeypress t deleteKey = (t, []) := by
  have hs' : s.editingField ≠ none := by
    cases h : s.editingField <;> simp [h] at hs ⊢
  have ht' : t.editingField ≠ none := by
    cases h : t.editingField <;> simp [h] at ht ⊢
  constructor
  · simp [handleKeypress, backspaceKey, hs', hs0, stripUnsafeCharacters,
      isUnsafeCharacter, utf16Len]
  · simp [handleKeypress, deleteKey, ht', htE, stripUnsafeCharacters,
      isUnsafeCharacter, utf16Len, utf16CharLen]

/-- Witness for C10 at concrete states: buffer `ab` with the cursor at 0
for backspace and at 2 for forward delete. -/
theorem C10_witness :
    handleKeypress { sampleEditing with editCursorPos := 0 } backspaceKey =
      ({ sampleEditing with editCursorPos := 0 }, []) ∧
    handleKeypress { sampleEditing with editCursorPos := 2 } deleteKey =
      ({ sampleEditing with editCursorPos := 2 }, []) :=
  C10_theorem { sampleEditing with editCursorPos := 0 }
    { sampleEditing with editCursorPos := 2 } rfl rfl rfl (by decide)

/-- A sanitized input accepted by the `ch.length === 1` guard is exactly
one codepoint long: a UTF-16 length of 1 forces a single (BMP)
codepoint. -/
theorem utf16Len_one_length (l : List Char) (h : utf16Len l = 1) :
    l.length = 1 := by
  cases l with
  | nil => simp [utf16Len] at h
  | cons c t =>
    cases t with
    | nil => rfl
    | cons d u =>
      exfalso
      have hc : 1 ≤ utf16CharLen c := by unfold utf16CharLen; split_ifs <;> omega
      have hd : 1 ≤ utf16CharLen d := by unfold utf16CharLen; split_ifs <;> omega
      simp [utf16Len] at h
      omega

set_option maxHeartbeats 2000000 in
/-- C2: every edit-session operation — `startEditing`, `commitEdit`, and
any keypress dispatch (paste, insert, backspace, delete, left, right,
home, end, commit, cancel) — preserves the cursor-in-bounds invariant,
and the editing field is set exactly when the dispatch is in editing
mode. -/
theorem C2_theorem (s : DialogState) (k : Key) (f : Option EditField)
    (init : List Char) (hInv : EditInv s) :
    EditInv (startEditing s f init) ∧ EditInv (commitEdit s) ∧
    EditInv (handleKeypress s k).1 ∧
    (sessionOpen s ↔ s.editingField ≠ none) := by
  have hInv' : s.editCursorPos ≤ s.editBuffer.length := hInv
  have hc : EditInv (commitEdit s) := by
    by_cases h1 : s.editingField = none
    · simpa [commitEdit, h1] using hInv
    · by_cases h2 : jsTrim s.editBuffer = []
      · simp [commitEdit, h1, h2, EditInv, cpLen]
      · by_cases h3 : s.editingField = some EditField.name <;>
          simp [commitEdit, h1, h2, h3, EditInv, cpLen]
  refine ⟨by simp [EditInv, startEditing, cpLen], hc, ?_,
    by simp [sessionOpen, Option.isSome_iff_ne_none]⟩
  by_cases hE : s.editingField = none
  · rw [show handleKeypress s k =
        (if k.name = "tab" then
          ({ s with
              focusMode :=
                if s.focusMode = FocusMode.settings then FocusMode.actions
                else FocusMode.settings }, [])
        else if k.name = "escape" then (s, [Effect.select none])
        else if s.focusMode = FocusMode.actions then
          if k.name = "left" ∨ k.name = "h" then ({ s with actionIndex := 0 }, [])
          else if k.name = "right" ∨ k.name = "l" then ({ s with actionIndex := 1 }, [])
          else if k.name = "return" then
            if s.actionIndex = 0 then (s, [Effect.save])
            else (s, [Effect.select none])
          else (s, [])
        else (s, [])) from by simp [handleKeypress, hE]]
    split_ifs <;> exact hInv
  · rw [show handleKeypress s k =
        (if k.paste = true ∧ k.sequence ≠ [] then
          if stripUnsafeCharacters k.sequence ≠ [] then
            ({ s with
                editBuffer :=
                  cpSlice s.editBuffer 0 s.editCursorPos ++
                    stripUnsafeCharacters k.sequence ++
                    cpSliceFrom s.editBuffer s.editCursorPos,
                editCursorPos :=
                  s.editCursorPos + cpLen (stripUnsafeCharacters k.sequence) }, [])
          else (s, [])
        else if k.name = "backspace" ∧ 0 < s.editCursorPos then
          ({ s with
              editBuffer :=
                cpSlice s.editBuffer 0 (s.editCursorPos - 1) ++
                  cpSliceFrom s.editBuffer s.editCursorPos,
              editCursorPos := s.editCursorPos - 1 }, [])
        else if k.name = "delete" ∧ s.editCursorPos < cpLen s.editBuffer then
          ({ s with
              editBuffer :=
                cpSlice s.editBuffer 0 s.editCursorPos ++
                  cpSliceFrom s.editBuffer (s.editCursorPos + 1) }, [])
        else if k.name = "escape" then
          ({ s with editingField := none, editBuffer := [], editCursorPos := 0 }, [])
        else if k.name = "return" then (commitEdit s, [])
        else if k.name = "left" then
          ({ s with editCursorPos := max 0 (s.editCursorPos - 1) }, [])
        else if k.name = "right" then
          ({ s with editCursorPos := min (cpLen s.editBuffer) (s.editCursorPos + 1) }, [])
        else if k.name = "home" then ({ s with editCursorPos := 0 }, [])
        else if k.name = "end" then ({ s with editCursorPos := cpLen s.editBuffer }, [])
        else if utf16Len (stripUnsafeCharacters k.sequence) = 1 then
          ({ s with
              editBuffer :=
                cpSlice s.editBuffer 0 s.editCursorPos ++
                  stripUnsafeCharacters k.sequence ++
                  cpSliceFrom s.editBuffer s.editCursorPos,
              editCursorPos := s.editCursorPos + 1 }, [])
        else (s, [])) from by simp [handleKeypress, hE]]
    split_ifs <;>
      first
        | exact hInv
        | exact hc
        | (simp only [EditInv, cpLen, cpSlice, cpSliceFrom, List.drop_zero,
            List.length_append, List.length_take, List.length_drop,
            inf_eq_min, sup_eq_max, Nat.min_def, Nat.max_def]
           first
             | omega
             | (split_ifs <;> omega))
        | (rename_i hone
           have hL := utf16Len_one_length _ hone
           simp only [EditInv, cpLen, cpSlice, cpSliceFrom, List.drop_zero,
             List.length_append, List.length_take, List.length_drop,
             inf_eq_min, sup_eq_max, Nat.min_def, Nat.max_def, hL]
           first
             | omega
             | (split_ifs <;> omega))

/-- Witness for C2 at a concrete editing state and backspace keypress. -/
theorem C2_witness :
    EditInv (startEditing sampleEditing (some EditField.name) "ab".data) ∧
    EditInv (commitEdit sampleEditing) ∧
    EditInv (handleKeypress sampleEditing backspaceKey).1 ∧
    (sessionOpen sampleEditing ↔ sampleEditing.editingField ≠ none) :=
  C2_theorem sampleEditing backspaceKey (some EditField.name) "ab".data
    (by unfold EditInv cpLen; decide)

/-- A keypress delivering the single non-BMP codepoint U+1F600 with no
recognised key name. -/
def emojiKey : Key :=
  { name := "", sequence := [Char.ofNat 0x1F600], paste := false }

/-- C1 fails on the code: U+1F600 survives sanitization as a single
codepoint, the event is not a paste and carries no named control key, yet
the handler leaves the editing state completely unchanged — the insert
guard tests the UTF-16 length (`ch.length === 1`), which is 2 for a
codepoint outside the Basic Multilingual Plane. -/
theorem C1_counterexample :
    cpLen (stripUnsafeCharacters emojiKey.sequence) = 1 ∧
    emojiKey.paste = false ∧
    (handleKeypress sampleEditing emojiKey).1 = sampleEditing ∧
    ¬ ((handleKeypress sampleEditing emojiKey).1.editCursorPos =
        sampleEditing.editCursorPos + 1) := by
  decide

/-- C1 as amended: for a non-paste event with an unrecognised key name
whose sanitized input is a single codepoint, the codepoint is inserted at
the cursor (which advances by one) exactly when it lies in the Basic
Multilingual Plane — i.e. when its UTF-16 length is 1; a single codepoint
outside the BMP leaves the state unchanged. -/
theorem C1_amended_theorem (s : DialogState) (k : Key) (c : Char)
    (hE : s.editingField.isSome = true)
    (hpaste : k.paste = false)
    (hname : k.name ∉ ["backspace", "delete", "escape", "return", "left",
      "right", "home", "end"])
    (hch : stripUnsafeCharacters k.sequence = [c]) :
    (c.toNat < 0x10000 →
      (handleKeypress s k).1 =
        { s with
            editBuffer := cpSlice s.editBuffer 0 s.editCursorPos ++ [c] ++
              cpSliceFrom s.editBuffer s.editCursorPos,
            editCursorPos := s.editCursorPos + 1 }) ∧
    (0x10000 ≤ c.toNat → (handleKeypress s k).1 = s) := by
  have hE' : s.editingField ≠ none := by
    cases h : s.editingField <;> simp [h] at hE ⊢
  simp only [List.mem_cons, List.not_mem_nil, or_false, not_or] at hname
  obtain ⟨h1, h2, h3, h4, h5, h6, h7, h8⟩ := hname
  constructor
  · intro hc
    simp [handleKeypress, hE', hpaste, h1, h2, h3, h4, h5, h6, h7, h8, hch,
      utf16Len, utf16CharLen, hc]
  · intro hc
    have hc' : ¬ (c.toNat < 0x10000) := by omega
    simp [handleKeypress, hE', hpaste, h1, h2, h3, h4, h5, h6, h7, h8, hch,
      utf16Len, utf16CharLen, hc']

/-- Witness for the amended C1: typing `a` with the cursor at 1 in buffer
`ab` yields buffer `aab` with the cursor at 2. -/
theorem C1_witness :
    (handleKeypress sampleEditing
        { name := "a", sequence := ['a'], paste := false }).1 =
      { sampleEditing with editBuffer := "aab".data, editCursorPos := 2 } := by
  have h := (C1_amended_theorem sampleEditing
      { name := "a", sequence := ['a'], paste := false } 'a' rfl rfl
      (by decide) (by decide)).1 (by decide)
  rw [h]; decide

/-- Undoing an insertion with backspaces: from a buffer holding `t`
spliced in at position `p` with the cursor right after it, `t.length`
backspace keypresses restore the original buffer and cursor. -/
theorem stepBackspaces_insert (s : DialogState) (b t : List Char) (p : Nat)
    (hE : s.editingField ≠ none) (hp : p ≤ b.length) :
    stepBackspaces t.length
      { s with editBuffer := b.take p ++ t ++ b.drop p,
               editCursorPos := p + t.length }
      = { s with editBuffer := b, editCursorPos := p } := by
  induction t using List.reverseRecOn with
  | nil => simp [stepBackspaces, List.take_append_drop]
  | append_singleton t' c ih =>
    have hlen : (b.take p ++ t').length = p + t'.length := by
      simp [List.length_take, Nat.min_eq_left hp]
    have htake :
        cpSlice (b.take p ++ (t' ++ [c]) ++ b.drop p) 0
            (p + (t' ++ [c]).length - 1) = b.take p ++ t' := by
      have hassoc : b.take p ++ (t' ++ [c]) ++ b.drop p =
          (b.take p ++ t') ++ ([c] ++ b.drop p) := by
        simp [List.append_assoc]
      have hn : p + (t' ++ [c]).length - 1 = (b.take p ++ t').length := by
        simp [hlen]
      rw [cpSlice, List.drop_zero, hassoc, hn, List.take_left]
    have hdrop :
        cpSliceFrom (b.take p ++ (t' ++ [c]) ++ b.drop p)
            (p + (t' ++ [c]).length) = b.drop p := by
      have hassoc : b.take p ++ (t' ++ [c]) ++ b.drop p =
          ((b.take p ++ t') ++ [c]) ++ b.drop p := by
        simp [List.append_assoc]
      rw [cpSliceFrom, hassoc, List.drop_left']
      simp only [List.length_append, List.length_take, List.length_singleton,
        Nat.min_eq_left hp]
      omega
    have hstep : (handleKeypress
        { s with editBuffer := b.take p ++ (t' ++ [c]) ++ b.drop p,
                 editCursorPos := p + (t' ++ [c]).length }
        backspaceKey).1 =
        { s with editBuffer := b.take p ++ t' ++ b.drop p,
                 editCursorPos := p + t'.length } := by
      have hpos : 0 < p + (t' ++ [c]).length := by simp
      simp only [handleKeypress, backspaceKey]
      rw [if_pos (by simpa using hE), if_neg (by simp), if_pos (by simp)]
      rw [htake, hdrop]
      simp
    have hunfold : stepBackspaces (t' ++ [c]).length
        { s with editBuffer := b.take p ++ (t' ++ [c]) ++ b.drop p,
                 editCursorPos := p + (t' ++ [c]).length }
        = stepBackspaces t'.length
          (handleKeypress
            { s with editBuffer := b.take p ++ (t' ++ [c]) ++ b.drop p,
                     editCursorPos := p + (t' ++ [c]).length }
            backspaceKey).1 := by
      simp [List.length_append]
      rfl
    rw [hunfold, hstep]
    exact ih

/-- C3: pasting any payload while editing grows the buffer by exactly the
codepoint length of the sanitized payload and advances the cursor by the
same amount, and that many subsequent backspace keypresses restore the
entire original state. -/
theorem C3_theorem (s : DialogState) (seq : List Char)
    (hE : s.editingField.isSome = true)
    (hp : s.editCursorPos ≤ cpLen s.editBuffer) :
    cpLen (handleKeypress s (pasteKey seq)).1.editBuffer =
      cpLen s.editBuffer + cpLen (stripUnsafeCharacters seq) ∧
    (handleKeypress s (pasteKey seq)).1.editCursorPos =
      s.editCursorPos + cpLen (stripUnsafeCharacters seq) ∧
    stepBackspaces (cpLen (stripUnsafeCharacters seq))
      (handleKeypress s (pasteKey seq)).1 = s := by
  have hE' : s.editingField ≠ none := by
    cases h : s.editingField <;> simp [h] at hE ⊢
  by_cases hseq : seq = []
  · have h0 : stripUnsafeCharacters seq = [] := by
      simp [hseq, stripUnsafeCharacters]
    have hid : (handleKeypress s (pasteKey seq)).1 = s := by
      simp [handleKeypress, pasteKey, hE', hseq, stripUnsafeCharacters,
        utf16Len]
    simp [hid, h0, cpLen, stepBackspaces]
  · by_cases hstrip : stripUnsafeCharacters seq = []
    · have hid : (handleKeypress s (pasteKey seq)).1 = s := by
        simp [handleKeypress, pasteKey, hE', hseq, hstrip]
      simp [hid, hstrip, cpLen, stepBackspaces]
    · have hres : (handleKeypress s (pasteKey seq)).1 =
          { s with
              editBuffer :=
                s.editBuffer.take s.editCursorPos ++
                  stripUnsafeCharacters seq ++
                  s.editBuffer.drop s.editCursorPos,
              editCursorPos :=
                s.editCursorPos + (stripUnsafeCharacters seq).length } := by
        simp [handleKeypress, pasteKey, hE', hseq, hstrip, cpSlice,
          cpSliceFrom, cpLen]
      have hp' : s.editCursorPos ≤ s.editBuffer.length := hp
      refine ⟨?_, ?_, ?_⟩
      · rw [hres]
        simp [cpLen, List.length_take, Nat.min_eq_left hp']
        omega
      · rw [hres]
        simp [cpLen]
      · rw [hres]
        have := stepBackspaces_insert s s.editBuffer
          (stripUnsafeCharacters seq) s.editCursorPos hE' hp'
        simpa [cpLen] using this

/-- Witness for C3: pasting `xy` into buffer `ab` at cursor 1 and then
pressing backspace twice restores the original state. -/
theorem C3_witness :
    stepBackspaces (cpLen (stripUnsafeCharacters "xy".data))
      (handleKeypress sampleEditing (pasteKey "xy".data)).1 = sampleEditing :=
  (C3_theorem sampleEditing "xy".data rfl (by unfold cpLen; decide)).2.2

/-- Toggling the same module twice restores the modules collection up to
set equality (all occurrences of the module are collapsed, everything
else untouched). -/
theorem toggleModule_toggleModule_mem (l : List String) (m x : String) :
    x ∈ toggleModule (toggleModule l m) m ↔ x ∈ l := by
  by_cases hm : m ∈ l
  · have h2 : m ∉ l.filter (fun y => y != m) := by
      simp [List.mem_filter]
    have e1 : toggleModule l m = l.filter (fun y => y != m) := by
      rw [toggleModule, if_pos hm]
    have e2 : toggleModule (l.filter (fun y => y != m)) m =
        l.filter (fun y => y != m) ++ [m] := by
      rw [toggleModule, if_neg h2]
    rw [e1, e2]
    simp only [List.mem_append, List.mem_filter, List.mem_singleton,
      bne_iff_ne, ne_eq]
    constructor
    · rintro (⟨h, _⟩ | rfl)
      · exact h
      · exact hm
    · intro h
      by_cases hx : x = m
      · exact Or.inr hx
      · exact Or.inl ⟨h, hx⟩
  · have h1 : m ∈ l ++ [m] := by simp
    have h2 : (l ++ [m]).filter (fun y => y != m) = l := by
      rw [List.filter_append]
      have hl : l.filter (fun y => y != m) = l :=
        List.filter_eq_self.mpr (fun a ha => by
          simp only [bne_iff_ne, ne_eq]
          exact fun h => hm (h ▸ ha))
      simp [hl]
    have e1 : toggleModule l m = l ++ [m] := by
      rw [toggleModule, if_neg hm]
    have e2 : toggleModule (l ++ [m]) m = l := by
      rw [toggleModule, if_pos h1, h2]
    rw [e1, e2]

/-- After one toggle, the toggled module name occurs at most once. -/
theorem toggleModule_count_self (l : List String) (m : String) :
    (toggleModule l m).count m ≤ 1 := by
  by_cases hm : m ∈ l
  · rw [toggleModule, if_pos hm]
    have h0 : (l.filter (fun y => y != m)).count m = 0 := by
      rw [List.count_eq_zero]
      simp [List.mem_filter]
    omega
  · rw [toggleModule, if_neg hm, List.count_append]
    have h0 : l.count m = 0 := List.count_eq_zero.mpr hm
    simp [h0]

/-- One toggle never changes how often any other module name occurs. -/
theorem toggleModule_count_other (l : List String) (m x : String)
    (hx : x ≠ m) :
    (toggleModule l m).count x = l.count x := by
  by_cases hm : m ∈ l
  · rw [toggleModule, if_pos hm]
    exact List.count_filter (by simp [bne_iff_ne]; exact hx)
  · rw [toggleModule, if_neg hm, List.count_append]
    have h1 : ([m] : List String).count x = 0 := by
      rw [List.count_eq_zero]
      simp
      exact fun h => hx h
    simp [h1]

/-- A navigating-mode state whose persisted modules list already contains
a duplicated name (reachable by loading a settings file whose `modules`
array lists `i18n` twice). -/
def sampleDupModules : DialogState :=
  { settings := { DEFAULT_SETTINGS with modules := ["i18n", "i18n"] }
    focusMode := FocusMode.settings
    actionIndex := 0
    editingField := none
    editBuffer := []
    editCursorPos := 0 }

/-- C7 fails on the code as stated: from a settings state whose modules
list holds `i18n` twice, a single activation of the `sqlite` toggle row
leaves `i18n` occurring twice, so it is not the case that after any
single activation each module name occurs at most once. -/
theorem C7_counterexample :
    ¬ (((handleSettingSelect sampleDupModules
          "module-sqlite").settings.modules).count "i18n" ≤ 1) := by
  decide

/-- C7 as amended: from any settings state, activating a module toggle
row twice yields a modules collection set-equal to the original, and
after any single activation the activated module's name occurs at most
once while every other name keeps its exact occurrence count. -/
theorem C7_amended_theorem (s : DialogState) (v m : String)
    (hE : s.editingField = none)
    (hvm : (v = "module-sqlite" ∧ m = "sqlite") ∨
           (v = "module-i18n" ∧ m = "i18n")) :
    (∀ x, x ∈ (handleSettingSelect (handleSettingSelect s v) v).settings.modules ↔
        x ∈ s.settings.modules) ∧
    ((handleSettingSelect s v).settings.modules).count m ≤ 1 ∧
    (∀ x, x ≠ m →
      ((handleSettingSelect s v).settings.modules).count x =
        s.settings.modules.count x) := by
  have hsel : handleSettingSelect s v =
      { s with settings :=
          { s.settings with modules := toggleModule s.settings.modules m } } := by
    rcases hvm with ⟨hv, hm⟩ | ⟨hv, hm⟩ <;> subst hv <;> subst hm <;>
      simp [handleSettingSelect, hE]
  have hsel2 : handleSettingSelect (handleSettingSelect s v) v =
      { s with settings :=
          { s.settings with
              modules := toggleModule (toggleModule s.settings.modules m) m } } := by
    rw [hsel]
    rcases hvm with ⟨hv, hm⟩ | ⟨hv, hm⟩ <;> subst hv <;> subst hm <;>
      simp [handleSettingSelect, hE]
  refine ⟨?_, ?_, ?_⟩
  · intro x
    rw [hsel2]
    exact toggleModule_toggleModule_mem s.settings.modules m x
  · rw [hsel]
    exact toggleModule_count_self s.settings.modules m
  · intro x hx
    rw [hsel]
    exact toggleModule_count_other s.settings.modules m x hx

/-- Witness for the amended C7: one `sqlite` toggle from the default
(empty-modules) navigating state leaves at most one `sqlite` entry. -/
theorem C7_witness :
    ((handleSettingSelect sampleNavigating
        "module-sqlite").settings.modules).count "sqlite" ≤ 1 :=
  (C7_amended_theorem sampleNavigating "module-sqlite" "sqlite" rfl
    (Or.inl ⟨rfl, rfl⟩)).2.1

/-- Looking up a path just written by `setFile` returns the written
contents. -/
theorem lookupFile_setFile (p c : String) (files : List (String × String)) :
    lookupFile p (setFile p c files) = some c := by
  simp [lookupFile, setFile]

/-- C8: `saveSettings` calls the result callback exactly once in every
run; when neither filesystem primitive fails, the `.aaagent` directory
exists afterwards, the settings file holds the deterministic
serialization of the full settings object, and the callback receives the
settings; when the required `mkdirSync` or the `writeFileSync` throws,
the error is swallowed and the callback receives the no-settings value
instead. -/
theorem C8_theorem (fs : Fs) (fault : FsFault) (wd : String)
    (st : ProductSettings) :
    (saveSettings fs fault wd st).2.length = 1 ∧
    ((saveSettings fs fault wd st).2 = [some st] ∨
      (saveSettings fs fault wd st).2 = [none]) ∧
    ((((wd ++ "/.aaagent") ∉ fs.dirs ∧ fault.mkdirFails = true) ∨
        fault.writeFails = true) →
      (saveSettings fs fault wd st).2 = [none]) ∧
    (¬ (((wd ++ "/.aaagent") ∉ fs.dirs ∧ fault.mkdirFails = true) ∨
        fault.writeFails = true) →
      (wd ++ "/.aaagent") ∈ (saveSettings fs fault wd st).1.dirs ∧
      lookupFile (wd ++ "/.aaagent" ++ "/product-settings.json")
          (saveSettings fs fault wd st).1.files =
        some (serializeSettings st) ∧
      (saveSettings fs fault wd st).2 = [some st]) := by
  by_cases hd : (wd ++ "/.aaagent") ∈ fs.dirs
  · by_cases hw : fault.writeFails = true
    · simp [saveSettings, hd, hw]
    · refine ⟨?_, ?_, ?_, ?_⟩ <;>
        simp [saveSettings, hd, hw, lookupFile_setFile]
  · by_cases hm : fault.mkdirFails = true
    · simp [saveSettings, hd, hm]
    · by_cases hw : fault.writeFails = true
      · simp [saveSettings, hd, hm, hw]
      · refine ⟨?_, ?_, ?_, ?_⟩ <;>
          simp [saveSettings, hd, hm, hw, lookupFile_setFile]

/-- Witness for C8: a fault-free save from an empty filesystem delivers
the settings through the callback. -/
theorem C8_witness :
    (saveSettings { dirs := [], files := [] }
        { mkdirFails := false, writeFails := false } "wd"
        DEFAULT_SETTINGS).2 = [some DEFAULT_SETTINGS] :=
  (C8_theorem { dirs := [], files := [] }
      { mkdirFails := false, writeFails := false } "wd"
      DEFAULT_SETTINGS).2.2.2 (by simp) |>.2.2
